import Mathlib

/-!
Verification of the decision & allocation engine (market regimes, risk budget,
allocation distribution, targets normalization, rebalance validation, adaptive
weights).  The JavaScript sources are embedded shallowly over `ℚ`:

* JS `Math.round` is `jsRound` (round half toward `+∞`, i.e. `⌊x + 1/2⌋`);
* JS `x || d` on numbers is `jsOrDefault` (`0` is falsy and yields the default);
* JS objects holding allocations are association lists `List (String × _)`;
* the mutable `allocation_bias` objects of `MARKET_REGIMES` are modelled as a
  `RegimeHeap`; a regime object returned by `getMarketRegime` keeps a `biasRef`
  naming the heap cell its (shallow-copied) `allocation_bias` pointer aliases;
* JS `throw` becomes `Except.error`.
-/

namespace CryptoRebal

/-- JS `Math.round`: round half toward `+∞`. -/
def jsRound (q : ℚ) : ℤ := ⌊q + 1/2⌋

/-- JS `x || d` on a number: `0` is falsy, so it yields the default. -/
def jsOrDefault (x dflt : ℚ) : ℚ := if x = 0 then dflt else x

/-- The `allocation_bias` record of a market regime. -/
structure AllocationBias where
  btc_boost : ℚ
  eth_boost : ℚ
  alts_reduction : ℚ
  stables_target : ℚ
  meme_cap : ℚ
deriving DecidableEq

/-- One entry of `MARKET_REGIMES` (fields the engine reads). -/
structure RegimeConfig where
  name : String
  rangeMin : ℚ
  rangeMax : ℚ
  allocation_bias : AllocationBias
deriving DecidableEq

def accumulationRegime : RegimeConfig :=
  { name := "Accumulation", rangeMin := 0, rangeMax := 39,
    allocation_bias :=
      { btc_boost := 10, eth_boost := 5, alts_reduction := -15,
        stables_target := 15, meme_cap := 0 } }

def expansionRegime : RegimeConfig :=
  { name := "Expansion", rangeMin := 40, rangeMax := 69,
    allocation_bias :=
      { btc_boost := 0, eth_boost := 0, alts_reduction := 0,
        stables_target := 20, meme_cap := 5 } }

def euphoriaRegime : RegimeConfig :=
  { name := "Euphorie", rangeMin := 70, rangeMax := 84,
    allocation_bias :=
      { btc_boost := -5, eth_boost := 5, alts_reduction := 10,
        stables_target := 15, meme_cap := 15 } }

def distributionRegime : RegimeConfig :=
  { name := "Distribution", rangeMin := 85, rangeMax := 100,
    allocation_bias :=
      { btc_boost := 5, eth_boost := -5, alts_reduction := -15,
        stables_target := 30, meme_cap := 0 } }

/-- `Object.entries(MARKET_REGIMES)` in declaration order. -/
def regimeEntries : List (String × RegimeConfig) :=
  [("accumulation", accumulationRegime), ("expansion", expansionRegime),
   ("euphoria", euphoriaRegime), ("distribution", distributionRegime)]

/-- The four mutable `allocation_bias` objects of `MARKET_REGIMES`. -/
structure RegimeHeap where
  accumulation : AllocationBias
  expansion : AllocationBias
  euphoria : AllocationBias
  distribution : AllocationBias
deriving DecidableEq

/-- The heap as loaded from the module: the configured biases. -/
def initialHeap : RegimeHeap :=
  { accumulation := accumulationRegime.allocation_bias,
    expansion := expansionRegime.allocation_bias,
    euphoria := euphoriaRegime.allocation_bias,
    distribution := distributionRegime.allocation_bias }

def getBias (h : RegimeHeap) (ref : String) : AllocationBias :=
  if ref = "accumulation" then h.accumulation
  else if ref = "euphoria" then h.euphoria
  else if ref = "distribution" then h.distribution
  else h.expansion

def setBias (h : RegimeHeap) (ref : String) (b : AllocationBias) : RegimeHeap :=
  if ref = "accumulation" then { h with accumulation := b }
  else if ref = "euphoria" then { h with euphoria := b }
  else if ref = "distribution" then { h with distribution := b }
  else { h with expansion := b }

structure TransitionStatus where
  status : String
  direction : String
  strength : ℚ
deriving DecidableEq

def calculateRegimeConfidence (score : ℚ) (r : RegimeConfig) : ℚ :=
  let center := (r.rangeMin + r.rangeMax) / 2
  let distance := |score - center|
  let maxDistance := (r.rangeMax - r.rangeMin) / 2
  max (3/10) (1 - distance / maxDistance * (7/10))

def getTransitionStatus (score : ℚ) (r : RegimeConfig) : TransitionStatus :=
  if score ≤ r.rangeMin + 3 then
    { status := "entering", direction := "from_below", strength := (score - r.rangeMin) / 3 }
  else if r.rangeMax - 3 ≤ score then
    { status := "exiting", direction := "to_above", strength := (r.rangeMax - score) / 3 }
  else
    { status := "stable", direction := "none", strength := 1 }

/-- Result of `getMarketRegime`.  `score = none` models a non-numeric input.
`biasRef` names the `MARKET_REGIMES` bias object the result's shallow-copied
`allocation_bias` field aliases. -/
structure RegimeResult where
  name : String
  key : Option String
  biasRef : String
  score : Option ℚ
  confidence : ℚ
  transition : Option TransitionStatus
  warning : Option String
deriving DecidableEq

def getMarketRegime (blendedScore : Option ℚ) : RegimeResult :=
  match blendedScore with
  | none =>
    { name := expansionRegime.name, key := none, biasRef := "expansion",
      score := none, confidence := 1/10, transition := none,
      warning := some "Score invalide" }
  | some s =>
    if s < 0 ∨ 100 < s then
      { name := expansionRegime.name, key := none, biasRef := "expansion",
        score := some s, confidence := 1/10, transition := none,
        warning := some "Score invalide" }
    else
      match regimeEntries.find? (fun kr => decide (kr.2.rangeMin ≤ s) && decide (s ≤ kr.2.rangeMax)) with
      | some kr =>
        { name := kr.2.name, key := some kr.1, biasRef := kr.1, score := some s,
          confidence := calculateRegimeConfidence s kr.2,
          transition := some (getTransitionStatus s kr.2), warning := none }
      | none =>
        { name := expansionRegime.name, key := some "expansion", biasRef := "expansion",
          score := some s, confidence := 3/10, transition := none,
          warning := some "Régime non déterminé" }

/-- Schmitt-trigger step of `applyMarketOverrides`:
`flip = (prev, val, up, down) => prev ? (val > down) : (val >= up)`. -/
def flip (prev : Bool) (val up down : ℚ) : Bool :=
  if prev then decide (down < val) else decide (up ≤ val)

/-- The flag sequence produced by iterating the hysteresis step over a list of
divergence values, starting from the default `false` flag. -/
def overrideFlagHistory (vals : List ℚ) : List Bool :=
  (vals.scanl (fun prev v => flip prev v 27 23) false).tail

/-- The persistent hysteresis flags (`window.__marketOverrideFlags`). -/
structure OverrideFlags where
  onchain_div : Bool
deriving DecidableEq

/-- Result of `applyMarketOverrides`: the adjusted regime (whose
`allocation_bias` is the final value of the aliased heap cell) and the
override audit trail (type tags). -/
structure AdjustedRegime where
  regime : RegimeResult
  allocation_bias : AllocationBias
  overrides : List String
deriving DecidableEq

/-- `applyMarketOverrides(regime, onchainScore, riskScore)`.  The `+=` writes
go through the shared `allocation_bias` object (`{ ...regime }` is a shallow
copy), so the heap cell named by `regime.biasRef` is updated in place. -/
def applyMarketOverrides (heap : RegimeHeap) (flags : OverrideFlags)
    (regime : RegimeResult) (onchainScore riskScore : Option ℚ) :
    AdjustedRegime × RegimeHeap × OverrideFlags :=
  let b0 := getBias heap regime.biasRef
  let step1 : OverrideFlags × AllocationBias × List String :=
    match onchainScore with
    | none => (flags, b0, [])
    | some o =>
      let newFlag :=
        match regime.score with
        | some s => flip flags.onchain_div |s - o| 27 23
        | none => false
      if newFlag then
        ({ onchain_div := newFlag },
         { b0 with stables_target := b0.stables_target + 10 }, ["onchain_divergence"])
      else ({ onchain_div := newFlag }, b0, [])
  let flags1 := step1.1
  let b1 := step1.2.1
  let ov1 := step1.2.2
  let step2 : AllocationBias × List String :=
    match riskScore with
    | some r =>
      if 80 ≤ r then
        ({ b1 with stables_target := max 50 b1.stables_target,
                   alts_reduction := b1.alts_reduction - 10, meme_cap := 0 }, ["high_risk"])
      else (b1, [])
    | none => (b1, [])
  let b2 := step2.1
  let ov2 := step2.2
  let step3 : AllocationBias × List String :=
    match riskScore with
    | some r =>
      if r ≤ 30 then
        ({ b2 with alts_reduction := b2.alts_reduction + 5,
                   meme_cap := b2.meme_cap + 5 }, ["low_risk"])
      else (b2, [])
    | none => (b2, [])
  let b3 := step3.1
  let ov3 := step3.2
  ({ regime := regime, allocation_bias := b3, overrides := ov1 ++ ov2 ++ ov3 },
   setBias heap regime.biasRef b3, flags1)

/-- Result record of `calculateRiskBudget` (cache and timestamps aside). -/
structure RiskBudget where
  risk_cap : ℚ
  base_risky : ℚ
  risky_allocation : ℚ
  stables_allocation : ℚ
  riskyPct : ℤ
  stablesPct : ℤ
deriving DecidableEq

/-- Pure computation of `calculateRiskBudget(blendedScore, riskScore)`;
`riskScore = none` models a missing score (`riskScore || 0`). -/
def calculateRiskBudget (blendedScore : ℚ) (riskScore : Option ℚ) : RiskBudget :=
  let blendedRounded : ℤ := jsRound blendedScore
  let riskRounded : ℤ := jsRound (riskScore.getD 0)
  let riskCap : ℚ := 1 - 1/2 * ((riskRounded : ℚ) / 100)
  let baseRisky : ℚ := max 0 (min 1 (((blendedRounded : ℚ) - 35) / 45))
  let riskyAllocation : ℚ := max (20/100) (min (85/100) (baseRisky * riskCap))
  { risk_cap := riskCap, base_risky := baseRisky, risky_allocation := riskyAllocation,
    stables_allocation := 1 - riskyAllocation,
    riskyPct := jsRound (riskyAllocation * 100),
    stablesPct := 100 - jsRound (riskyAllocation * 100) }

/-- The intra-risky quadruple (btc, eth, midcaps, meme) of `allocateRiskyBudget`
after regime bias and the round-after-rescale normalization step. -/
def intraRiskySplit (bias : AllocationBias) : ℚ × ℚ × ℚ × ℚ :=
  let btc : ℚ := 50 + jsOrDefault bias.btc_boost 0
  let eth : ℚ := 30 + jsOrDefault bias.eth_boost 0
  let midcaps : ℚ := 15 + jsOrDefault bias.alts_reduction 0
  let meme : ℚ := min 5 (jsOrDefault bias.meme_cap 5)
  let total := btc + eth + midcaps + meme
  if total = 100 then (btc, eth, midcaps, meme)
  else
    let factor := 100 / total
    ((jsRound (btc * factor) : ℚ), (jsRound (eth * factor) : ℚ),
     (jsRound (midcaps * factor) : ℚ), (jsRound (meme * factor) : ℚ))

/-- `allocateRiskyBudget(riskyPercentage, regime)` — only `regime.allocation_bias`
is read.  Returns the 11-group map in source insertion order. -/
def allocateRiskyBudget (riskyPercentage : ℚ) (bias : AllocationBias) : List (String × ℚ) :=
  let s := intraRiskySplit bias
  let btc := s.1
  let eth := s.2.1
  let midcaps := s.2.2.1
  let meme := s.2.2.2
  let riskyFactor := riskyPercentage / 100
  [("BTC", btc * riskyFactor),
   ("ETH", eth * riskyFactor),
   ("SOL", midcaps * riskyFactor * (2/10)),
   ("L1/L0 majors", midcaps * riskyFactor * (4/10)),
   ("L2/Scaling", midcaps * riskyFactor * (3/10)),
   ("DeFi", midcaps * riskyFactor * (1/10)),
   ("AI/Data", meme * riskyFactor * (5/10)),
   ("Gaming/NFT", meme * riskyFactor * (3/10)),
   ("Memecoins", meme * riskyFactor * (2/10)),
   ("Stablecoins", 100 - riskyPercentage),
   ("Others", 0)]

/-- The single-cycle adjustment of override 1 on an aliased bias. -/
def divergenceAdjust (b : AllocationBias) : AllocationBias :=
  { b with stables_target := b.stables_target + 10 }

/-- The single-cycle adjustment of override 2 (`riskScore ≥ 80`). -/
def highRiskAdjust (b : AllocationBias) : AllocationBias :=
  { b with stables_target := max 50 b.stables_target,
           alts_reduction := b.alts_reduction - 10, meme_cap := 0 }

/-- The single-cycle adjustment of override 3 (`riskScore ≤ 30`). -/
def lowRiskAdjust (b : AllocationBias) : AllocationBias :=
  { b with alts_reduction := b.alts_reduction + 5, meme_cap := b.meme_cap + 5 }

/-- Every allocation bias reachable in one decision cycle from the pristine
configuration: each regime's bias, optionally adjusted by the on-chain
divergence override, and optionally by the high- or low-risk override. -/
def reachableBiases : List AllocationBias :=
  (regimeEntries.map (fun kr => kr.2.allocation_bias)).flatMap (fun b =>
    [b, divergenceAdjust b].flatMap (fun c => [c, highRiskAdjust c, lowRiskAdjust c]))

/-- Sum of the numeric values of an allocation map. -/
def sumValues (l : List (String × ℚ)) : ℚ := (l.map Prod.snd).sum

/-- A JS object value: a number or a string (e.g. `model_version`). -/
inductive JSVal where
  | num : ℚ → JSVal
  | str : String → JSVal
deriving DecidableEq

/-- The numeric contribution of a value (`typeof val === 'number' ? val : 0`). -/
def valNum : JSVal → ℚ
  | .num q => q
  | _ => 0

/-- The 11 canonical asset groups, in source order. -/
def ALL_ASSET_GROUPS : List String :=
  ["BTC", "ETH", "Stablecoins", "SOL", "L1/L0 majors", "L2/Scaling", "DeFi",
   "AI/Data", "Gaming/NFT", "Memecoins", "Others"]

def hasKey (targets : List (String × JSVal)) (g : String) : Bool :=
  targets.any (fun p => p.1 == g)

/-- `ensureAllGroups`: add every missing canonical group with value `0`. -/
def ensureAllGroups (targets : List (String × JSVal)) : List (String × JSVal) :=
  targets ++ (ALL_ASSET_GROUPS.filter (fun g => !(hasKey targets g))).map
    (fun g => (g, JSVal.num 0))

/-- Output of `normalizeTargets` / target-generating strategies. -/
structure NormalizedTargets where
  values : List (String × ℚ)
  model_version : String
deriving DecidableEq

/-- The numeric entries (`model_version` destructured away) after
`ensureAllGroups`. -/
def numericEntries (targets : List (String × JSVal)) : List (String × JSVal) :=
  (ensureAllGroups targets).filter (fun p => p.1 != "model_version")

/-- The total the normalization divides by. -/
def numericTotal (targets : List (String × JSVal)) : ℚ :=
  ((numericEntries targets).map (fun p => valNum p.2)).sum

/-- `model_version || 'unknown'` (the empty string is falsy). -/
def modelVersionOf (targets : List (String × JSVal)) : String :=
  match (ensureAllGroups targets).find? (fun p => p.1 == "model_version") with
  | some p =>
    match p.2 with
    | .str s => if s = "" then "unknown" else s
    | _ => "unknown"
  | none => "unknown"

/-- The rescaled entries of `normalizeTargets` (non-numeric values become 0). -/
def normalizedValuesFor (targets : List (String × JSVal)) : List (String × ℚ) :=
  (numericEntries targets).map (fun p =>
    (p.1, match p.2 with | JSVal.num q => q / numericTotal targets * 100 | _ => 0))

/-- `normalizeTargets(targets)`: rescale the numeric entries to sum `100`;
throws when the total is not positive. -/
def normalizeTargets (targets : List (String × JSVal)) : Except String NormalizedTargets :=
  if numericTotal targets ≤ 0 then Except.error "Total allocation must be positive"
  else Except.ok
    { values := normalizedValuesFor targets,
      model_version := modelVersionOf targets }

/-- Modelled from the spec: `interpretCCS` lives in `signals-engine.js`, which
is not among the sources; only its `level` field is consumed here, with the
bands documented at the call site: very_high 80-100, high 65-79, medium 50-64,
low 35-49, very_low 0-34. -/
def interpretCCSLevel (score : ℚ) : String :=
  if 80 ≤ score then "very_high"
  else if 65 ≤ score then "high"
  else if 50 ≤ score then "medium"
  else if 35 ≤ score then "low"
  else "very_low"

/-- `DEFAULT_MACRO_TARGETS` with its `model_version` tag. -/
def DEFAULT_MACRO_TARGETS : List (String × JSVal) :=
  [("BTC", .num 35), ("ETH", .num 25), ("Stablecoins", .num 20), ("SOL", .num 5),
   ("L1/L0 majors", .num 7), ("L2/Scaling", .num 4), ("DeFi", .num 2),
   ("AI/Data", .num (3/2)), ("Gaming/NFT", .num (1/2)), ("Memecoins", .num 0),
   ("Others", .num 0), ("model_version", .str "macro-2")]

/-- The raw 11-group values `generateCCSTargets` assigns for a CCS level, in
`ALL_ASSET_GROUPS` order. -/
def ccsLevelValues (level : String) : List ℚ :=
  if level = "very_high" then [40, 30, 10, 8, 7, 3, 1, 1/2, 1/2, 0, 0]
  else if level = "high" then [38, 28, 15, 7, 6, 3, 2, 1/2, 1/2, 0, 0]
  else if level = "medium" then [35, 25, 20, 5, 7, 4, 2, 3/2, 1/2, 0, 0]
  else if level = "low" then [30, 20, 30, 4, 6, 3, 5, 3/2, 1/2, 0, 0]
  else [25, 15, 45, 3, 4, 2, 5, 1, 0, 0, 0]

/-- `generateCCSTargets(ccsScore)`: throws `'Invalid CCS score'` on a
non-numeric (`none`) or out-of-range score, otherwise normalizes the
level-dependent preset. -/
def generateCCSTargets (ccsScore : Option ℚ) : Except String NormalizedTargets :=
  match ccsScore with
  | none => Except.error "Invalid CCS score"
  | some s =>
    if s < 0 ∨ 100 < s then Except.error "Invalid CCS score"
    else
      let level := interpretCCSLevel s
      let targets := (ALL_ASSET_GROUPS.zip ((ccsLevelValues level).map JSVal.num)) ++
        [("model_version", JSVal.str ("ccs-" ++ level))]
      normalizeTargets targets

/-- The optional inputs of `validateRebalancing`. -/
structure ValidationOptions where
  onchainScore : Option ℚ
  drawdown : Option ℚ
  portfolioValueUSD : Option ℚ
  lastRebalanceTime : Option ℚ
deriving DecidableEq

def defaultOptions : ValidationOptions :=
  { onchainScore := none, drawdown := none, portfolioValueUSD := none,
    lastRebalanceTime := none }

/-- One entry of `validation.changes`.  The JS code stores the numbers as
`toFixed` strings; we store the correspondingly rounded rationals. -/
structure Change where
  asset : String
  current : ℚ
  proposed : ℚ
  absolute_change : ℚ
  relative_change : ℚ
  action : String
  priority : String
  skip_reason : Option String
deriving DecidableEq

/-- `x.toFixed(2)` re-read as a number (values here are nonnegative). -/
def twoDec (q : ℚ) : ℚ := (jsRound (q * 100) : ℚ) / 100

/-- `x.toFixed(1)` re-read as a number (values here are nonnegative). -/
def oneDec (q : ℚ) : ℚ := (jsRound (q * 10) : ℚ) / 10

/-- Result of `validateRebalancing`; warnings and recommendations are kept as
their `type` tags, blocked reasons as the leading message text. -/
structure ValidationResult where
  valid : Bool
  changes : List Change
  warnings : List String
  blocked_reasons : List String
  recommendations : List String
deriving DecidableEq

/-- `new Set([...keysA, ...keysB])` in insertion order. -/
def assetUnion (cur prop : List (String × ℚ)) : List String :=
  (cur.map Prod.fst ++ prop.map Prod.fst).foldl
    (fun acc a => if a ∈ acc then acc else acc ++ [a]) []

/-- `alloc[asset] || 0`. -/
def allocLookup (l : List (String × ℚ)) (a : String) : ℚ :=
  match l.find? (fun p => p.1 == a) with
  | some p => p.2
  | none => 0

/-- Destructuring `model_version` away from a targets object. -/
def stripVersion (l : List (String × ℚ)) : List (String × ℚ) :=
  l.filter (fun p => p.1 != "model_version")

/-- The per-asset change loop of `validateRebalancing`: a change entry is
pushed only when the absolute change exceeds the 3-point threshold. -/
def changeFor (curAlloc propAlloc : List (String × ℚ)) (asset : String) : Option Change :=
  let current := allocLookup curAlloc asset
  let proposed := allocLookup propAlloc asset
  let absoluteChange := |proposed - current|
  let relativeChange :=
    if 0 < current then absoluteChange / current
    else if 0 < proposed then 1 else 0
  if 3 < absoluteChange then
    some { asset := asset, current := twoDec current, proposed := twoDec proposed,
           absolute_change := twoDec absoluteChange,
           relative_change := oneDec (relativeChange * 100),
           action := if current < proposed then "buy" else "sell",
           priority := if 5 < absoluteChange then "high" else "medium",
           skip_reason := none }
  else none

def computeChanges (curAlloc propAlloc : List (String × ℚ)) : List Change :=
  (assetUnion curAlloc propAlloc).filterMap (changeFor curAlloc propAlloc)

/-- `validateRebalancing(currentTargets, proposedTargets, options)`; `now` is
the ambient `Date.now()` read by the frequency rule. -/
def validateRebalancing (currentTargets proposedTargets : Option (List (String × ℚ)))
    (options : ValidationOptions) (now : ℚ) : ValidationResult :=
  match currentTargets, proposedTargets with
  | some cur, some prop =>
    let curAlloc := stripVersion cur
    let propAlloc := stripVersion prop
    let changes := computeChanges curAlloc propAlloc
    let significantChanges := changes.filter (fun c =>
      decide ((3:ℚ) ≤ c.absolute_change) || decide ((20:ℚ) ≤ c.relative_change))
    let rule1Blocked := significantChanges.isEmpty
    let blocked1 : List String :=
      if rule1Blocked then ["No significant changes (min 3% or 20% relative)"] else []
    let stablesTarget := allocLookup propAlloc "Stablecoins"
    let warnings2 : List String :=
      match options.onchainScore with
      | some o => if o < 45 ∧ stablesTarget < 40 then ["risk_circuit_breaker"] else []
      | none => []
    let rule3Blocked : Bool :=
      match options.drawdown with
      | some d => decide (d < -(25/100)) && decide (stablesTarget < 40)
      | none => false
    let blocked3 : List String :=
      if rule3Blocked then ["Drawdown circuit breaker triggered"] else []
    let changes4 : List Change :=
      match options.portfolioValueUSD with
      | some v =>
        if v = 0 then changes
        else changes.map (fun c =>
          if c.absolute_change / 100 * v < 200 then
            { c with skip_reason := some "Order too small" }
          else c)
      | none => changes
    let warnings5 : List String :=
      match options.lastRebalanceTime with
      | some t =>
        if t = 0 then []
        else if (now - t) / 3600000 < 168 then ["frequency_warning"] else []
      | none => []
    let recs1 : List String := if 5 < changes4.length then ["complexity_warning"] else []
    let totalVolume : ℚ := (changes4.map (fun c => c.absolute_change)).sum
    let recs2 : List String := if 20 < totalVolume then ["volume_warning"] else []
    { valid := !rule1Blocked && !rule3Blocked,
      changes := changes4,
      warnings := warnings2 ++ warnings5,
      blocked_reasons := blocked1 ++ blocked3,
      recommendations := recs1 ++ recs2 }
  | _, _ =>
    { valid := false, changes := [], warnings := [],
      blocked_reasons := ["Missing allocation data"], recommendations := [] }

/-- Result of `calculateAdaptiveWeights`. -/
structure AdaptiveWeights where
  wCycle : ℚ
  wOnchain : ℚ
  wRisk : ℚ
  onchainFloor : ℚ
  adjustedOnchainScore : ℚ
  speedMultiplier : ℚ
deriving DecidableEq

/-- `calculateAdaptiveWeights(cycleData, onchainScore, contradictions)`:
`cycleScoreRaw` is `cycleData && cycleData.score` (so `(… ) || 50` applies),
`contradictionLevel` is `(contradictions && contradictions.length) || 0`. -/
def calculateAdaptiveWeights (cycleScoreRaw : Option ℚ) (onchainScore : Option ℚ)
    (contradictionLevel : ℕ) : AdaptiveWeights :=
  let cycleScore : ℚ := jsOrDefault (cycleScoreRaw.getD 0) 50
  let w : ℚ × ℚ × ℚ :=
    if 90 ≤ cycleScore then (65/100, 25/100, 1/10)
    else if 70 ≤ cycleScore then (55/100, 28/100, 17/100)
    else (1/2, 3/10, 1/5)
  let onchainPenaltyFloor : ℚ := if 90 ≤ cycleScore then 3/10 else 0
  let speedMultiplier : ℚ :=
    if 3 ≤ contradictionLevel then 6/10
    else if 2 ≤ contradictionLevel then 8/10
    else 1
  { wCycle := w.1, wOnchain := w.2.1, wRisk := w.2.2,
    onchainFloor := onchainPenaltyFloor,
    adjustedOnchainScore := max (onchainPenaltyFloor * 100) (onchainScore.getD 50),
    speedMultiplier := speedMultiplier }

end CryptoRebal

namespace CryptoRebal

theorem jsRound_mono {a b : ℚ} (h : a ≤ b) : jsRound a ≤ jsRound b :=
  Int.floor_le_floor (by linarith)

theorem sum_map_scaled (l : List (String × JSVal)) (t : ℚ) :
    sumValues (l.map (fun p =>
        (p.1, match p.2 with | JSVal.num q => q / t * 100 | _ => 0)))
      = ((l.map (fun p => valNum p.2)).sum) / t * 100 := by
  induction l with
  | nil => simp [sumValues]
  | cons hd tl ih =>
    cases h : hd.2 with
    | num q =>
      simp [sumValues, h, valNum] at ih ⊢
      try rw [ih]
      try ring
    | str a =>
      simp [sumValues, h, valNum] at ih ⊢
      try rw [ih]
      try ring

theorem allocateRiskyBudget_sum (p : ℚ) (bias : AllocationBias) :
    sumValues (allocateRiskyBudget p bias) =
      ((intraRiskySplit bias).1 + (intraRiskySplit bias).2.1 +
       (intraRiskySplit bias).2.2.1 + (intraRiskySplit bias).2.2.2) * (p / 100) + (100 - p) := by
  simp [sumValues, allocateRiskyBudget]
  ring

theorem reachable_intra_sum_bound :
    ∀ b ∈ reachableBiases,
      |(intraRiskySplit b).1 + (intraRiskySplit b).2.1 +
       (intraRiskySplit b).2.2.1 + (intraRiskySplit b).2.2.2 - 100| ≤ 1 := by
  intro b hb
  simp [reachableBiases, regimeEntries, accumulationRegime, expansionRegime, euphoriaRegime,
    distributionRegime, divergenceAdjust, highRiskAdjust, lowRiskAdjust] at hb
  rcases hb with rfl|rfl|rfl|rfl|rfl|rfl|rfl|rfl|rfl|rfl|rfl|rfl|rfl|rfl|rfl|rfl|rfl|rfl|rfl|rfl|rfl|rfl|rfl|rfl <;>
    norm_num [intraRiskySplit, jsOrDefault, jsRound]

theorem mem_keys_numericEntries (g : String) (hg : g ∈ ALL_ASSET_GROUPS)
    (t : List (String × JSVal)) : g ∈ (numericEntries t).map Prod.fst := by
  have hgne : g ≠ "model_version" := by
    simp [ALL_ASSET_GROUPS] at hg
    rcases hg with rfl|rfl|rfl|rfl|rfl|rfl|rfl|rfl|rfl|rfl|rfl <;> decide
  have hmem : ∃ p ∈ ensureAllGroups t, p.1 = g := by
    by_cases hk : hasKey t g = true
    · obtain ⟨p, hp, hpe⟩ := List.any_eq_true.mp hk
      exact ⟨p, List.mem_append_left _ hp, by simpa using hpe⟩
    · refine ⟨(g, JSVal.num 0), List.mem_append_right _ ?_, rfl⟩
      exact List.mem_map_of_mem _ (List.mem_filter.mpr ⟨hg, by simp [hk]⟩)
  obtain ⟨p, hp, hpe⟩ := hmem
  refine List.mem_map.mpr ⟨p, List.mem_filter.mpr ⟨hp, ?_⟩, hpe⟩
  simp [hpe, hgne]

/-- C3: for every numeric pair (blendedScore, riskScore), `calculateRiskBudget`
returns riskCap = 1 − 0.5·(round(risk)/100), baseRisky = clamp((round(blended)−35)/45, 0, 1),
riskyAllocation = clamp(baseRisky·riskCap, 0.20, 0.85), riskyPct = round(riskyAllocation·100),
stablesPct = 100 − riskyPct; hence riskyPct + stablesPct = 100 exactly and riskyPct ∈ [20, 85]. -/
theorem risk_budget_formulas (b r : ℚ) :
    (calculateRiskBudget b (some r)).risk_cap = 1 - 1/2 * ((jsRound r : ℚ) / 100) ∧
    (calculateRiskBudget b (some r)).base_risky = max 0 (min 1 (((jsRound b : ℚ) - 35) / 45)) ∧
    (calculateRiskBudget b (some r)).risky_allocation =
      max (20/100) (min (85/100)
        ((calculateRiskBudget b (some r)).base_risky * (calculateRiskBudget b (some r)).risk_cap)) ∧
    (calculateRiskBudget b (some r)).riskyPct =
      jsRound ((calculateRiskBudget b (some r)).risky_allocation * 100) ∧
    (calculateRiskBudget b (some r)).stablesPct = 100 - (calculateRiskBudget b (some r)).riskyPct ∧
    (calculateRiskBudget b (some r)).riskyPct + (calculateRiskBudget b (some r)).stablesPct = 100 ∧
    20 ≤ (calculateRiskBudget b (some r)).riskyPct ∧
    (calculateRiskBudget b (some r)).riskyPct ≤ 85 := by
  have hlo : (20:ℚ) ≤ (calculateRiskBudget b (some r)).risky_allocation * 100 := by
    have h := le_max_left (20/100 : ℚ)
      (min (85/100) ((calculateRiskBudget b (some r)).base_risky * (calculateRiskBudget b (some r)).risk_cap))
    simp only [calculateRiskBudget] at h ⊢
    linarith
  have hhi : (calculateRiskBudget b (some r)).risky_allocation * 100 ≤ 85 := by
    have h : (calculateRiskBudget b (some r)).risky_allocation ≤ 85/100 := by
      simp only [calculateRiskBudget]
      exact max_le (by norm_num) (min_le_left _ _)
    linarith
  refine ⟨rfl, rfl, rfl, rfl, rfl, ?_, ?_, ?_⟩
  · simp only [calculateRiskBudget]
    omega
  · have h := jsRound_mono hlo
    have h20 : jsRound (20:ℚ) = 20 := by norm_num [jsRound]
    simp only [calculateRiskBudget] at h ⊢
    omega
  · have h := jsRound_mono hhi
    have h85 : jsRound (85:ℚ) = 85 := by norm_num [jsRound]
    simp only [calculateRiskBudget] at h ⊢
    omega

/-- C4: the on-chain divergence override is a Schmitt trigger with U = 27, D = 23:
each step computes flag' = prevFlag ? (value > 23) : (value ≥ 27), and the
divergence sequence [20, 26, 28, 25, 24, 22] yields flags [F, F, T, T, T, F]. -/
theorem hysteresis_flag_behaviour :
    (∀ (prev : Bool) (v : ℚ),
        flip prev v 27 23 = if prev then decide (23 < v) else decide (27 ≤ v)) ∧
    overrideFlagHistory [20, 26, 28, 25, 24, 22] =
      [false, false, true, true, true, false] := by
  refine ⟨fun prev v => rfl, ?_⟩
  norm_num [overrideFlagHistory, flip, List.scanl]

/-- C5: the high-risk/meme-cap-zero rule is not enforced by `allocateRiskyBudget`:
because of the JS-falsy default `bias.meme_cap || 5`, a bias with meme_cap = 0
(accumulation regime shown) still gets a meme sleeve of 5, so the AI/Data,
Gaming/NFT and Memecoins groups receive 1.25, 0.75 and 0.5 at riskyPct = 50
instead of the 0 the override messages (`memes=0%`) promise. -/
theorem meme_cap_zero_not_enforced :
    accumulationRegime.allocation_bias.meme_cap = 0 ∧
    allocLookup (allocateRiskyBudget 50 accumulationRegime.allocation_bias) "AI/Data" = 5/4 ∧
    allocLookup (allocateRiskyBudget 50 accumulationRegime.allocation_bias) "Gaming/NFT" = 3/4 ∧
    allocLookup (allocateRiskyBudget 50 accumulationRegime.allocation_bias) "Memecoins" = 1/2 := by
  refine ⟨rfl, ?_, ?_, ?_⟩ <;>
  · norm_num [allocLookup, allocateRiskyBudget, intraRiskySplit, jsOrDefault, jsRound,
      accumulationRegime, List.find?]
    try simp
    try norm_num

/-- C6: `applyMarketOverrides` mutates shared state through the aliased
`allocation_bias` object: with blended = 50, onchain = 10 (divergence 40) the
first call returns stables_target 30, the identical second call returns 40, and
the `MARKET_REGIMES.expansion` configuration itself (initially 20) is left at 40. -/
theorem apply_overrides_mutates_config :
    (applyMarketOverrides initialHeap { onchain_div := false }
        (getMarketRegime (some 50)) (some 10) none).1.allocation_bias.stables_target = 30 ∧
    (applyMarketOverrides
        (applyMarketOverrides initialHeap { onchain_div := false }
          (getMarketRegime (some 50)) (some 10) none).2.1
        (applyMarketOverrides initialHeap { onchain_div := false }
          (getMarketRegime (some 50)) (some 10) none).2.2
        (getMarketRegime (some 50)) (some 10) none).1.allocation_bias.stables_target = 40 ∧
    initialHeap.expansion.stables_target = 20 ∧
    (applyMarketOverrides
        (applyMarketOverrides initialHeap { onchain_div := false }
          (getMarketRegime (some 50)) (some 10) none).2.1
        (applyMarketOverrides initialHeap { onchain_div := false }
          (getMarketRegime (some 50)) (some 10) none).2.2
        (getMarketRegime (some 50)) (some 10) none).2.1.expansion.stables_target = 40 := by
  refine ⟨?_, ?_, rfl, ?_⟩ <;>
  · norm_num [applyMarketOverrides, getMarketRegime, regimeEntries, List.find?,
      accumulationRegime, expansionRegime, euphoriaRegime, distributionRegime,
      initialHeap, getBias, setBias, flip]
    try simp
    try norm_num

/-- C10: when either targets argument is null/undefined, `validateRebalancing`
returns valid = false, blocked_reasons = ["Missing allocation data"] and empty
changes, warnings and recommendations, without throwing. -/
theorem missing_allocation_data_result :
    ∀ (cur prop : Option (List (String × ℚ))) (opts : ValidationOptions) (now : ℚ),
      cur = none ∨ prop = none →
      validateRebalancing cur prop opts now =
        { valid := false, changes := [], warnings := [],
          blocked_reasons := ["Missing allocation data"], recommendations := [] } := by
  intro cur prop opts now h
  rcases h with rfl | rfl
  · cases prop <;> rfl
  · cases cur <;> rfl

/-- Witness for C10 at the concrete input (none, some []). -/
theorem missing_allocation_data_result_witness :
    (none = (none : Option (List (String × ℚ))) ∨ some ([] : List (String × ℚ)) = none) ∧
    validateRebalancing none (some []) defaultOptions 0 =
      { valid := false, changes := [], warnings := [],
        blocked_reasons := ["Missing allocation data"], recommendations := [] } :=
  ⟨Or.inl rfl, missing_allocation_data_result none (some []) defaultOptions 0 (Or.inl rfl)⟩

/-- C7 (counterexample): `generateCCSTargets` does throw on an out-of-range
score — at 150 it raises 'Invalid CCS score' instead of substituting a
fallback result. -/
theorem generateCCSTargets_throws_counterexample :
    generateCCSTargets (some 150) = Except.error "Invalid CCS score" := by
  norm_num [generateCCSTargets]

/-- C7 (amended): for every non-numeric or out-of-range score,
`getMarketRegime` never throws and returns the Expansion fallback with
confidence 0.1 and the warning field set, while `generateCCSTargets` throws
'Invalid CCS score' instead of substituting a fallback. -/
theorem invalid_score_fallback :
    ∀ s : Option ℚ, (s = none ∨ ∃ q, s = some q ∧ (q < 0 ∨ 100 < q)) →
      (getMarketRegime s).name = "Expansion" ∧
      (getMarketRegime s).confidence = 1/10 ∧
      (getMarketRegime s).warning = some "Score invalide" ∧
      (getMarketRegime s).biasRef = "expansion" ∧
      generateCCSTargets s = Except.error "Invalid CCS score" := by
  intro s h
  rcases h with rfl | ⟨q, rfl, hq⟩
  · exact ⟨rfl, rfl, rfl, rfl, rfl⟩
  · simp only [getMarketRegime, generateCCSTargets, if_pos hq]
    exact ⟨by trivial, by trivial, by trivial, by trivial, by trivial⟩

/-- Witness for C7 at the concrete invalid score 150. -/
theorem invalid_score_fallback_witness :
    (some (150:ℚ) = none ∨ ∃ q, some (150:ℚ) = some q ∧ (q < 0 ∨ 100 < q)) ∧
    (getMarketRegime (some (150:ℚ))).warning = some "Score invalide" ∧
    (getMarketRegime (some (150:ℚ))).confidence = 1/10 := by
  have hq : (150:ℚ) < 0 ∨ (100:ℚ) < 150 := Or.inr (by norm_num)
  have h := invalid_score_fallback (some 150) (Or.inr ⟨150, rfl, hq⟩)
  exact ⟨Or.inr ⟨150, rfl, hq⟩, h.2.2.1, h.2.1⟩

/-- C8: if every group's absolute change is below 3 points and its relative
change below 20%, `validateRebalancing` returns valid = false and its
blocked_reasons contain the minimum-threshold message. -/
theorem insignificant_changes_blocked :
    ∀ (cur prop : List (String × ℚ)),
      (∀ a ∈ assetUnion (stripVersion cur) (stripVersion prop),
        |allocLookup (stripVersion prop) a - allocLookup (stripVersion cur) a| < 3 ∧
        (if 0 < allocLookup (stripVersion cur) a then
            |allocLookup (stripVersion prop) a - allocLookup (stripVersion cur) a| /
              allocLookup (stripVersion cur) a
          else if 0 < allocLookup (stripVersion prop) a then 1 else 0) < 1/5) →
      (validateRebalancing (some cur) (some prop) defaultOptions 0).valid = false ∧
      "No significant changes (min 3% or 20% relative)" ∈
        (validateRebalancing (some cur) (some prop) defaultOptions 0).blocked_reasons := by
  intro cur prop h
  have hch : computeChanges (stripVersion cur) (stripVersion prop) = [] := by
    rw [computeChanges, List.filterMap_eq_nil_iff]
    intro a ha
    have habs := (h a ha).1
    simp only [changeFor]
    rw [if_neg (not_lt.mpr (le_of_lt habs))]
  constructor <;> simp [validateRebalancing, hch, defaultOptions]

/-- Witness for C8 at a concrete pair of targets whose changes are all 0.5
points (1.67% and 0.71% relative). -/
theorem insignificant_changes_blocked_witness :
    (validateRebalancing (some [("BTC", 30), ("ETH", 70)])
      (some [("BTC", 61/2), ("ETH", 139/2)]) defaultOptions 0).valid = false ∧
    "No significant changes (min 3% or 20% relative)" ∈
      (validateRebalancing (some [("BTC", 30), ("ETH", 70)])
        (some [("BTC", 61/2), ("ETH", 139/2)]) defaultOptions 0).blocked_reasons := by
  apply insignificant_changes_blocked
  intro a ha
  simp [assetUnion, stripVersion, List.foldl] at ha
  rcases ha with rfl | rfl <;>
  · simp [allocLookup, stripVersion, List.find?]
    norm_num [abs_of_nonneg, abs_of_nonpos, abs_lt]

/-- C9: `calculateAdaptiveWeights` returns (0.5, 0.3, 0.2) by default,
(0.65, 0.25, 0.10) for cycleScore ≥ 90 and (0.55, 0.28, 0.17) for
cycleScore ∈ [70, 90); for cycleScore ≥ 90 the adjusted on-chain score is the
maximum of 30 and the on-chain input. -/
theorem adaptive_weights_values :
    ∀ (s o : ℚ) (n : ℕ),
      (s < 70 →
        (calculateAdaptiveWeights (some s) (some o) n).wCycle = 1/2 ∧
        (calculateAdaptiveWeights (some s) (some o) n).wOnchain = 3/10 ∧
        (calculateAdaptiveWeights (some s) (some o) n).wRisk = 1/5) ∧
      (90 ≤ s →
        (calculateAdaptiveWeights (some s) (some o) n).wCycle = 65/100 ∧
        (calculateAdaptiveWeights (some s) (some o) n).wOnchain = 25/100 ∧
        (calculateAdaptiveWeights (some s) (some o) n).wRisk = 1/10 ∧
        (calculateAdaptiveWeights (some s) (some o) n).adjustedOnchainScore = max 30 o) ∧
      (70 ≤ s → s < 90 →
        (calculateAdaptiveWeights (some s) (some o) n).wCycle = 55/100 ∧
        (calculateAdaptiveWeights (some s) (some o) n).wOnchain = 28/100 ∧
        (calculateAdaptiveWeights (some s) (some o) n).wRisk = 17/100) := by
  intro s o n
  refine ⟨fun h70 => ?_, fun h90 => ?_, fun h70' h90 => ?_⟩
  · by_cases h0 : s = 0
    · subst h0
      norm_num [calculateAdaptiveWeights, jsOrDefault]
    · have e1 : ((90:ℚ) ≤ s) = False := eq_false (not_le.mpr (by linarith))
      have e2 : ((70:ℚ) ≤ s) = False := eq_false (not_le.mpr h70)
      simp [calculateAdaptiveWeights, jsOrDefault, h0, e1, e2]
  · have e0 : (s = 0) = False := eq_false (fun h => by rw [h] at h90; norm_num at h90)
    have e1 : ((90:ℚ) ≤ s) = True := eq_true h90
    simp [calculateAdaptiveWeights, jsOrDefault, e0, e1]
    norm_num
  · have e0 : (s = 0) = False := eq_false (fun h => by rw [h] at h70'; norm_num at h70')
    have e1 : ((90:ℚ) ≤ s) = False := eq_false (not_le.mpr h90)
    have e2 : ((70:ℚ) ≤ s) = True := eq_true h70'
    simp [calculateAdaptiveWeights, jsOrDefault, e0, e1, e2]

/-- Witness for C9 at the concrete inputs cycle = 95, onchain = 10. -/
theorem adaptive_weights_values_witness :
    (90:ℚ) ≤ 95 ∧
    (calculateAdaptiveWeights (some 95) (some 10) 0).wCycle = 65/100 ∧
    (calculateAdaptiveWeights (some 95) (some 10) 0).adjustedOnchainScore = max 30 10 := by
  have h := (adaptive_weights_values 95 10 0).2.1 (by norm_num)
  exact ⟨by norm_num, h.1, h.2.2.2⟩

/-- C1 (counterexample): the ±0.1 tolerance fails for `allocateRiskyBudget`:
with the euphoria regime bias the rounded intra-risky weights sum to 101, so at
riskyPct = 67 the 11 values sum to 100.67. -/
theorem allocation_sum_tolerance_counterexample :
    (20:ℚ) ≤ 67 ∧ (67:ℚ) ≤ 85 ∧ euphoriaRegime.allocation_bias ∈ reachableBiases ∧
    sumValues (allocateRiskyBudget 67 euphoriaRegime.allocation_bias) = 10067/100 ∧
    ¬ |sumValues (allocateRiskyBudget 67 euphoriaRegime.allocation_bias) - 100| ≤ 1/10 := by
  have hsum : sumValues (allocateRiskyBudget 67 euphoriaRegime.allocation_bias) = 10067/100 := by
    norm_num [sumValues, allocateRiskyBudget, intraRiskySplit, jsOrDefault, jsRound,
      euphoriaRegime]
  refine ⟨by norm_num, by norm_num, ?_, hsum, ?_⟩
  · simp [reachableBiases, regimeEntries]
  · rw [hsum]
    norm_num [abs_of_nonneg]

/-- C1 (amended): every `normalizeTargets` output (for an input object with a
positive numeric total) contains all 11 canonical groups and sums to 100 within
±0.1; every `allocateRiskyBudget` output for riskyPct ∈ [20, 85] and a
reachable regime bias contains all 11 canonical groups and sums to 100 within
±1 — but not always within ±0.1, since the independently rounded intra-risky
weights can sum to 99 or 101. -/
theorem allocation_targets_invariant :
    (∀ targets : List (String × JSVal), (targets.map Prod.fst).Nodup →
        0 < numericTotal targets →
        ∃ res, normalizeTargets targets = Except.ok res ∧
          (∀ g ∈ ALL_ASSET_GROUPS, g ∈ res.values.map Prod.fst) ∧
          |sumValues res.values - 100| ≤ 1/10) ∧
    (∀ (p : ℚ) (bias : AllocationBias), 20 ≤ p → p ≤ 85 → bias ∈ reachableBiases →
        (∀ g ∈ ALL_ASSET_GROUPS, g ∈ (allocateRiskyBudget p bias).map Prod.fst) ∧
        |sumValues (allocateRiskyBudget p bias) - 100| ≤ 1) := by
  constructor
  · intro targets hnodup htotal
    refine ⟨NormalizedTargets.mk (normalizedValuesFor targets) (modelVersionOf targets),
      ?_, ?_, ?_⟩
    · simp only [normalizeTargets]
      rw [if_neg (not_le.mpr htotal)]
    · intro g hg
      have h := mem_keys_numericEntries g hg targets
      simpa [normalizedValuesFor, List.map_map, Function.comp] using h
    · have hv : sumValues (normalizedValuesFor targets) = 100 := by
        rw [normalizedValuesFor, sum_map_scaled,
          show ((numericEntries targets).map fun p => valNum p.2).sum = numericTotal targets
            from rfl,
          div_self (ne_of_gt htotal)]
        norm_num
      simp only [hv]
      norm_num
  · intro p bias hp1 hp2 hbias
    constructor
    · intro g hg
      simp [ALL_ASSET_GROUPS] at hg
      rcases hg with rfl|rfl|rfl|rfl|rfl|rfl|rfl|rfl|rfl|rfl|rfl <;>
        simp [allocateRiskyBudget]
    · have hsum := allocateRiskyBudget_sum p bias
      have hT := reachable_intra_sum_bound bias hbias
      rw [hsum]
      rw [show ((intraRiskySplit bias).1 + (intraRiskySplit bias).2.1 +
          (intraRiskySplit bias).2.2.1 + (intraRiskySplit bias).2.2.2) * (p / 100) + (100 - p)
          - 100
        = ((intraRiskySplit bias).1 + (intraRiskySplit bias).2.1 +
          (intraRiskySplit bias).2.2.1 + (intraRiskySplit bias).2.2.2 - 100) * (p / 100)
        from by ring]
      calc |((intraRiskySplit bias).1 + (intraRiskySplit bias).2.1 +
              (intraRiskySplit bias).2.2.1 + (intraRiskySplit bias).2.2.2 - 100) * (p / 100)|
          = |(intraRiskySplit bias).1 + (intraRiskySplit bias).2.1 +
              (intraRiskySplit bias).2.2.1 + (intraRiskySplit bias).2.2.2 - 100| * |p / 100| :=
            abs_mul _ _
        _ ≤ 1 * (85/100) := by
            apply mul_le_mul hT ?_ (abs_nonneg _) zero_le_one
            rw [abs_of_nonneg (by linarith : (0:ℚ) ≤ p / 100)]
            linarith
        _ ≤ 1 := by norm_num

/-- Witness for C1: the macro defaults for `normalizeTargets`, and
riskyPct = 25 with the expansion bias for `allocateRiskyBudget`. -/
theorem allocation_targets_invariant_witness :
    ((DEFAULT_MACRO_TARGETS.map Prod.fst).Nodup ∧
      0 < numericTotal DEFAULT_MACRO_TARGETS ∧
      (20:ℚ) ≤ 25 ∧ (25:ℚ) ≤ 85 ∧ expansionRegime.allocation_bias ∈ reachableBiases) ∧
    (∃ res, normalizeTargets DEFAULT_MACRO_TARGETS = Except.ok res ∧
        (∀ g ∈ ALL_ASSET_GROUPS, g ∈ res.values.map Prod.fst) ∧
        |sumValues res.values - 100| ≤ 1/10) ∧
    ((∀ g ∈ ALL_ASSET_GROUPS,
        g ∈ (allocateRiskyBudget 25 expansionRegime.allocation_bias).map Prod.fst) ∧
      |sumValues (allocateRiskyBudget 25 expansionRegime.allocation_bias) - 100| ≤ 1) := by
  have h1 : (DEFAULT_MACRO_TARGETS.map Prod.fst).Nodup := by decide
  have h2 : 0 < numericTotal DEFAULT_MACRO_TARGETS := by
    simp [numericTotal, numericEntries, ensureAllGroups, hasKey, ALL_ASSET_GROUPS,
      DEFAULT_MACRO_TARGETS, valNum]
    norm_num
  have h5 : expansionRegime.allocation_bias ∈ reachableBiases := by
    simp [reachableBiases, regimeEntries]
  exact ⟨⟨h1, h2, by norm_num, by norm_num, h5⟩,
    allocation_targets_invariant.1 DEFAULT_MACRO_TARGETS h1 h2,
    allocation_targets_invariant.2 25 expansionRegime.allocation_bias
      (by norm_num) (by norm_num) h5⟩

/-- C2 (counterexample): 39.5 lies in [0, 100] but in the real-number gap
between the Accumulation and Expansion ranges, so `getMarketRegime` reaches the
'regime not determined' fallback branch. -/
theorem regime_gap_counterexample :
    (0:ℚ) ≤ 79/2 ∧ (79/2:ℚ) ≤ 100 ∧
    (getMarketRegime (some (79/2))).warning = some "Régime non déterminé" ∧
    (getMarketRegime (some (79/2))).confidence = 3/10 := by
  refine ⟨by norm_num, by norm_num, ?_, ?_⟩ <;>
    norm_num [getMarketRegime, regimeEntries, List.find?, accumulationRegime, expansionRegime,
      euphoriaRegime, distributionRegime]

/-- C2 (amended): for every integer blendedScore in [0, 100] exactly one of the
four regime ranges matches — they partition the integers of [0, 100] — and
`getMarketRegime` classifies it without reaching the fallback branch; only
non-integral scores inside the gaps (39, 40), (69, 70), (84, 85) fall through. -/
theorem regime_integer_partition :
    ∀ n : ℤ, 0 ≤ n → n ≤ 100 →
      (regimeEntries.countP (fun kr =>
        decide (kr.2.rangeMin ≤ (n:ℚ)) && decide ((n:ℚ) ≤ kr.2.rangeMax))) = 1 ∧
      (getMarketRegime (some (n:ℚ))).warning = none := by
  intro n h0 h100
  interval_cases n <;> constructor <;>
    norm_num [regimeEntries, List.countP, List.countP.go, getMarketRegime, List.find?,
      accumulationRegime, expansionRegime, euphoriaRegime, distributionRegime]

/-- Witness for C2 at the concrete integer score 50. -/
theorem regime_integer_partition_witness :
    ((0:ℤ) ≤ 50 ∧ (50:ℤ) ≤ 100) ∧
    (regimeEntries.countP (fun kr =>
      decide (kr.2.rangeMin ≤ ((50:ℤ):ℚ)) && decide (((50:ℤ):ℚ) ≤ kr.2.rangeMax))) = 1 ∧
    (getMarketRegime (some ((50:ℤ):ℚ))).warning = none :=
  ⟨⟨by norm_num, by norm_num⟩, regime_integer_partition 50 (by norm_num) (by norm_num)⟩

end CryptoRebal
